import Mathlib

set_option maxRecDepth 8000

/-!
Verification development for the CMforAI markdown generator
(`src/cmforai/generator.py`), centred on the file-selection /
budget-allocation engine (`MarkdownGenerator._select_files`,
`MarkdownGenerator._apply_general_limits`), the token estimator
(`MarkdownGenerator._estimate_file_tokens`), the per-file content renderer
(`MarkdownGenerator._generate_file_content`), and the structural-digest
functions (`MarkdownGenerator._compress_python_file` and the generic
fallback branch of `MarkdownGenerator._compress_file_content`).

Machine integers are modelled as `Nat` (sizes, line counts, caps are
non-negative in the data model) and `Int` (the signed `priority` field).
Python `//` on non-negative integers is `Nat` division.  Python truthiness
of optional integer fields (`if self.config.max_tokens:` and friends) is
modelled explicitly: `None` and `0` are falsy.
-/

namespace CMforAI

/-- Mirror of `analyzer.FileInfo` (dataclass, analyzer.py lines 14-23).
`path_name` models `str(f.path.name)`, the file-name component of the
`path` field, which `_select_files` consults in explicit-list mode. -/
structure FileInfo where
  path_name : String
  relative_path : String
  size : Nat
  lines : Nat
  language : String
  is_important : Bool
  priority : Int
deriving DecidableEq

/-- Mirror of `generator.GenerationConfig` (generator.py lines 15-31),
restricted to the fields the selector and renderer read.  `None` is
`Option.none`; Python defaults are reproduced. -/
structure GenerationConfig where
  max_tokens : Option Nat := none
  max_files : Option Nat := none
  max_file_size : Option Nat := none
  max_lines_per_file : Option Nat := none
  compress_large_files : Bool := true
  compress_threshold_lines : Nat := 200
  include_comments : Bool := true
  files_to_analyze : Option (List String) := none
deriving DecidableEq

/-- Python truthiness of an `Optional[int]` field: `None` and `0` are falsy.
This mirrors guards such as `if self.config.max_tokens:` in generator.py. -/
def truthyNat : Option Nat → Bool
  | none => false
  | some n => n != 0

/-- `MarkdownGenerator.TOKENS_PER_CHAR` (generator.py line 38): the constant
`0.25`, as an exact rational. -/
def TOKENS_PER_CHAR : ℚ := 0.25

/-- `MarkdownGenerator._estimate_file_tokens` (generator.py lines 608-611):
`int(file_info.size * self.TOKENS_PER_CHAR)` with `TOKENS_PER_CHAR = 0.25`.
For a non-negative integer size the float product `size * 0.25` has the same
significand as `size`, so the computation is exact and truncation toward zero
equals `floor(size / 4)` for every size below `2 ^ 53` (far beyond any real
file size); the model therefore uses exact natural division by 4. -/
def estimateTokens (size : Nat) : Nat := size / 4

/-- The guard `if self.config.max_files and len(selected) >= self.config.max_files`
(generator.py lines 559, 588, 1141, 1164). -/
def maxFilesReached (cfg : GenerationConfig) (selected : List FileInfo) : Bool :=
  truthyNat cfg.max_files && decide (cfg.max_files.getD 0 ≤ selected.length)

/-- The guard `if self.config.max_file_size and file_info.size > self.config.max_file_size`
(generator.py lines 563, 592, 1144, 1167). -/
def oversize (cfg : GenerationConfig) (f : FileInfo) : Bool :=
  truthyNat cfg.max_file_size && decide (cfg.max_file_size.getD 0 < f.size)

/-- The combined guard `if self.config.max_tokens:` followed by
`if total_tokens + file_tokens > self.config.max_tokens:` (generator.py
lines 571-572, 599-600, 1150-1151, 1172-1173).  The two non-overflow paths
(`max_tokens` falsy, or the sum within the cap) behave identically in the
source (charge the full token cost and include), so they are merged. -/
def tokenOverflow (cfg : GenerationConfig) (total ft : Nat) : Bool :=
  truthyNat cfg.max_tokens && decide (cfg.max_tokens.getD 0 < total + ft)

/-- The `important` loop of `MarkdownGenerator._select_files` (generator.py
lines 557-583).  State is `(selected, total_tokens)`.  On token overflow with
`compress_large_files` the record is appended and charged `file_tokens // 3`;
without compression the record is skipped and the loop continues
(`continue`, line 577). -/
def sfImportant (cfg : GenerationConfig) : List FileInfo → List FileInfo → Nat → List FileInfo × Nat
  | [], selected, total => (selected, total)
  | f :: rest, selected, total =>
    if maxFilesReached cfg selected then (selected, total)
    else if oversize cfg f && !cfg.compress_large_files then
      sfImportant cfg rest selected total
    else
      let ft := estimateTokens f.size
      if tokenOverflow cfg total ft then
        if cfg.compress_large_files then
          sfImportant cfg rest (selected ++ [f]) (total + ft / 3)
        else
          sfImportant cfg rest selected total
      else
        sfImportant cfg rest (selected ++ [f]) (total + ft)

/-- The `important` loop of `MarkdownGenerator._apply_general_limits`
(generator.py lines 1140-1160).  Identical to `sfImportant` except on token
overflow without compression: there the loop stops (`break`, line 1157)
instead of skipping the record and continuing. -/
def aglImportant (cfg : GenerationConfig) : List FileInfo → List FileInfo → Nat → List FileInfo × Nat
  | [], selected, total => (selected, total)
  | f :: rest, selected, total =>
    if maxFilesReached cfg selected then (selected, total)
    else if oversize cfg f && !cfg.compress_large_files then
      aglImportant cfg rest selected total
    else
      let ft := estimateTokens f.size
      if tokenOverflow cfg total ft then
        if cfg.compress_large_files then
          aglImportant cfg rest (selected ++ [f]) (total + ft / 3)
        else
          (selected, total)
      else
        aglImportant cfg rest (selected ++ [f]) (total + ft)

/-- The `regular` loop, verbatim identical in `_select_files` (generator.py
lines 586-604) and `_apply_general_limits` (lines 1163-1177): oversized
records are always skipped, and the first record that would overflow the
token budget stops the loop (`break`). -/
def selectRegularLoop (cfg : GenerationConfig) : List FileInfo → List FileInfo → Nat → List FileInfo × Nat
  | [], selected, total => (selected, total)
  | f :: rest, selected, total =>
    if maxFilesReached cfg selected then (selected, total)
    else if oversize cfg f then selectRegularLoop cfg rest selected total
    else
      let ft := estimateTokens f.size
      if tokenOverflow cfg total ft then (selected, total)
      else selectRegularLoop cfg rest (selected ++ [f]) (total + ft)

/-- Normal-mode body of `MarkdownGenerator._select_files` (generator.py lines
552-606): partition into important and regular preserving order, run
the important loop, then the regular loop; exposes the final
`(selected, total_tokens)` state. -/
def selectFilesNormalPair (cfg : GenerationConfig) (files : List FileInfo) : List FileInfo × Nat :=
  let important := files.filter (fun f => f.is_important)
  let regular := files.filter (fun f => !f.is_important)
  let st := sfImportant cfg important [] 0
  selectRegularLoop cfg regular st.1 st.2

/-- The selected list of normal-mode `_select_files`. -/
def selectFilesNormal (cfg : GenerationConfig) (files : List FileInfo) : List FileInfo :=
  (selectFilesNormalPair cfg files).1

/-- `MarkdownGenerator._apply_general_limits` (generator.py lines 1130-1179)
with its final `(selected, total_tokens)` state exposed. -/
def applyGeneralLimitsPair (cfg : GenerationConfig) (files : List FileInfo) : List FileInfo × Nat :=
  let important := files.filter (fun f => f.is_important)
  let regular := files.filter (fun f => !f.is_important)
  let st := aglImportant cfg important [] 0
  selectRegularLoop cfg regular st.1 st.2

/-- The selected list returned by `_apply_general_limits`. -/
def applyGeneralLimits (cfg : GenerationConfig) (files : List FileInfo) : List FileInfo :=
  (applyGeneralLimitsPair cfg files).1

/-- `[Path(f).as_posix() for f in self.config.files_to_analyze]`
(generator.py line 538).  On a POSIX system `as_posix` leaves an already
normalized relative path unchanged; entries are modelled as given. -/
def posixNormalize (s : String) : String := s

/-- The explicit-list candidate filter of `_select_files` (generator.py lines
539-542): keep the records whose `relative_path` or file-name component is
string-equal to one of the specified entries. -/
def explicitMatches (specified : List String) (files : List FileInfo) : List FileInfo :=
  files.filter (fun f => specified.contains f.relative_path || specified.contains f.path_name)

/-- `MarkdownGenerator._select_files` (generator.py lines 531-606) with the
running state and the empty-match warning (the `print` to stderr at line 546)
exposed.  `if self.config.files_to_analyze:` is Python truthiness: `None` and
the empty list take the normal-mode path. -/
def selectFilesPair (cfg : GenerationConfig) (files : List FileInfo) : (List FileInfo × Nat) × Bool :=
  match cfg.files_to_analyze with
  | some entries =>
    if entries.isEmpty then (selectFilesNormalPair cfg files, false)
    else
      let specified := entries.map posixNormalize
      let matched := explicitMatches specified files
      if matched.isEmpty then (applyGeneralLimitsPair cfg files, true)
      else (applyGeneralLimitsPair cfg matched, false)
  | none => (selectFilesNormalPair cfg files, false)

/-- Observable behaviour of `_select_files`: the selected records, paired
with whether the empty-match warning was emitted on the side channel. -/
def selectFiles (cfg : GenerationConfig) (files : List FileInfo) : List FileInfo × Bool :=
  ((selectFilesPair cfg files).1.1, (selectFilesPair cfg files).2)

/-! ## Content renderer (`_generate_file_content`) -/

/-- `'\n'.join(lines)`: Python string join with a newline separator. -/
def joinLines (l : List String) : String :=
  match l with
  | [] => ""
  | a :: rest => rest.foldl (fun acc x => acc ++ "\n" ++ x) a

/-- `''.join(lines)`: Python string join with the empty separator. -/
def joinAll (l : List String) : String := l.foldl (fun acc x => acc ++ x) ""

/-- Python `str.strip()` (whitespace from both ends), computable by the
kernel: drop whitespace characters from both ends of the character list.
(The Lean `Char.isWhitespace` set — space, tab, CR, LF — covers every
whitespace character occurring in the sources and inputs considered.) -/
def pyStrip (s : String) : String :=
  String.mk (((s.data.dropWhile Char.isWhitespace).reverse.dropWhile Char.isWhitespace).reverse)

/-- Python `str.lstrip()`: drop leading whitespace. -/
def pyLStrip (s : String) : String :=
  String.mk (s.data.dropWhile Char.isWhitespace)

/-- Python `str.startswith(pre)`, as a prefix test on the character list. -/
def pyStartsWith (s pre : String) : Bool := pre.data.isPrefixOf s.data

/-- Worker for `pySplit`: standard leftmost non-overlapping split on a
non-empty separator.  Each step consumes at least one input character, so
`input.length + 1` units of fuel always suffice; `acc` holds the current
piece reversed. -/
def splitOnListAux (sep : List Char) : Nat → List Char → List Char → List String
  | 0, _, acc => [String.mk acc.reverse]
  | _ + 1, [], acc => [String.mk acc.reverse]
  | fuel + 1, c :: rest, acc =>
    if sep.isPrefixOf (c :: rest) && !sep.isEmpty then
      String.mk acc.reverse :: splitOnListAux sep fuel ((c :: rest).drop sep.length) []
    else splitOnListAux sep fuel rest (c :: acc)

/-- Python `str.split(sep)` for a non-empty separator (`content.split('\n')`
and the docstring-delimiter splits below). -/
def pySplit (s sep : String) : List String :=
  splitOnListAux sep.data (s.data.length + 1) s.data []

/-- The string of three single-quote characters (a Python docstring
delimiter), built from character codes. -/
def tripleSQ : String := String.mk (List.replicate 3 (Char.ofNat 39))

/-- The string of three double-quote characters. -/
def tripleDQ : String := String.mk (List.replicate 3 (Char.ofNat 34))

/-- Python `'needle' in haystack` substring test, via `pySplit`. -/
def containsSub (haystack needle : String) : Bool :=
  1 < (pySplit haystack needle).length

/-- A character of the regex class `\w` (generator.py uses ASCII
identifiers; the unicode extension of Python `\w` is immaterial here). -/
def wordChar (c : Char) : Bool := c.isAlphanum || c = '_'

/-- Leftmost match of the regex `kw\s+(\w+)` over a character list: at each
position try the literal `kw`, then at least one whitespace character, then a
maximal non-empty run of word characters (the captured group).  `\s` and `\w`
are disjoint, so greedy matching without backtracking is exact.  Mirrors
`re.search(r'class\s+(\w+)', content)` / `re.search(r'def\s+(\w+)', content)`
in `_get_file_context` (generator.py lines 491, 496). -/
def searchKwWord (kw : List Char) : List Char → Option String
  | [] => none
  | c :: rest =>
    if kw.isPrefixOf (c :: rest) then
      let after := (c :: rest).drop kw.length
      let ws := after.takeWhile Char.isWhitespace
      let w := (after.drop ws.length).takeWhile wordChar
      if !ws.isEmpty && !w.isEmpty then some (String.mk w)
      else searchKwWord kw rest
    else searchKwWord kw rest

/-- `MarkdownGenerator._get_file_context` (generator.py lines 474-502),
applied to the first 1000 characters of the file (`f.read(1000)`).  The
docstring regex `'"""(.*?)"""'` with `re.DOTALL` captures the text between
the first two occurrences of the triple-double-quote delimiter, which is the
second piece of `splitOn`. -/
def getFileContext (content : String) : String :=
  let parts := pySplit content tripleDQ
  let docResult :=
    if containsSub content tripleDQ || containsSub content tripleSQ then
      if 3 ≤ parts.length then
        let doc := pyStrip (parts.getD 1 (""))
        if doc.data.length < 200 then some ((pySplit doc ("\n")).getD 0 (""))
        else none
      else none
    else none
  match docResult with
  | some d => d
  | none =>
    match (if containsSub content ("class ") then searchKwWord ("class").data content.data else none) with
    | some w => "Class: " ++ w
    | none =>
      match (if containsSub content ("def ") then searchKwWord ("def").data content.data else none) with
      | some w => "Function: " ++ w
      | none => ""

/-- `MarkdownGenerator._get_importance_stars` (generator.py lines 326-335). -/
def importanceStars (f : FileInfo) : String :=
  if 15 ≤ f.priority then "⭐⭐⭐"
  else if 10 ≤ f.priority then "⭐⭐"
  else if f.is_important then "⭐"
  else "⬜"

/-- `MarkdownGenerator._generate_file_content` (generator.py lines 613-649).
`strip` stands for the per-language comment-stripping collaborator
`_remove_comments(content, language)` (the spec treats comment stripping as
an external strategy); it receives the language tag and the content.
`readResult` models the `open(...).read()` of the file: `Except.error e`
is the `except Exception as e` path.  `_get_file_context` performs its own
read of the same file, modelled by reusing `readResult`'s first 1000
characters (an unreadable file yields the empty context, as its inner
`try` swallows the failure). -/
def generateFileContent (strip : String → String → String) (cfg : GenerationConfig)
    (f : FileInfo) (readResult : Except String String) : String :=
  let context :=
    match readResult with
    | Except.ok c => getFileContext (String.mk (c.data.take 1000))
    | Except.error _ => ""
  let headerLines : List String :=
    ("#### " ++ importanceStars f ++ " File: `" ++ f.relative_path ++ "`") ::
    ("*Language: " ++ f.language ++ " | Lines: " ++ toString f.lines ++ " | Size: " ++
      toString f.size ++ " bytes*") ::
    ((if f.is_important && decide (50 < f.lines) then
        (if context.data.isEmpty then [] else ["*Purpose: " ++ context ++ "*"])
      else []) ++ [""])
  match readResult with
  | Except.ok content =>
    let content2 := if cfg.include_comments then content else strip f.language content
    let langTag := if f.language != "unknown" then f.language else ""
    joinLines (headerLines ++ ["```" ++ langTag, content2, "```"])
  | Except.error e =>
    joinLines (headerLines ++ ["*Error reading file: " ++ e ++ "*"])

/-! ## Structural digests (`_compress_python_file` and the generic fallback) -/

/-- `line.strip().startswith(('import ', 'from '))` (generator.py line 678). -/
def isPyImportLine (l : String) : Bool :=
  pyStartsWith (pyStrip l) ("import ") || pyStartsWith (pyStrip l) ("from ")

/-- `stripped.startswith(('class ', 'def ', 'async def '))` (generator.py
line 691), applied to the stripped line. -/
def isPyDefStart (s : String) : Bool :=
  pyStartsWith s ("class ") || pyStartsWith s ("def ") || pyStartsWith s ("async def ")

/-- `lines[j].strip().startswith(('"""', "'''", '#'))` (generator.py line
704): a docstring delimiter or comment, applied to the stripped line. -/
def isPyCommentCont (s : String) : Bool :=
  pyStartsWith s tripleDQ || pyStartsWith s tripleSQ || pyStartsWith s ("#")

/-- The definition scan of `_compress_python_file` (generator.py lines
687-695): collect `(index, line)` for stripped lines starting a class or
function whose indent (`len(line) - len(line.lstrip())`) is at most the
last accepted indent plus 4; accepting a line updates that level. -/
def pyDefScanAux : List String → Nat → Nat → List (Nat × String)
  | [], _, _ => []
  | l :: rest, i, lvl =>
    if isPyDefStart (pyStrip l) then
      let ind := l.data.length - (pyLStrip l).data.length
      if ind ≤ lvl + 4 then (i, l) :: pyDefScanAux rest (i + 1) ind
      else pyDefScanAux rest (i + 1) lvl
    else pyDefScanAux rest (i + 1) lvl

/-- Definition scan started at index 0 with `indent_level = 0`. -/
def pyDefScan (lines : List String) : List (Nat × String) := pyDefScanAux lines 0 0

/-- The context loop after a definition line (generator.py lines 701-705):
`for j in range(line_num + 1, min(line_num + 5, len(lines)))`, appending
each non-blank line and breaking after the first one that is not a
docstring/comment continuation.  The fuel argument counts the at most four
remaining indices of the range; `lines.get? j` enforces the length bound. -/
def pyCtxAux (lines : List String) : Nat → Nat → List String
  | _, 0 => []
  | j, fuel + 1 =>
    match lines.get? j with
    | none => []
    | some l =>
      if (pyStrip l).data.isEmpty then pyCtxAux lines (j + 1) fuel
      else if isPyCommentCont (pyStrip l) then l :: pyCtxAux lines (j + 1) fuel
      else [l]

/-- Context lines emitted after the definition at index `i`. -/
def pyCtx (lines : List String) (i : Nat) : List String := pyCtxAux lines (i + 1) 4

/-- The remainder note `f"# ... and {len(imports) - 20} more imports"`
(generator.py line 683). -/
def pyMoreImportsNote (n : Nat) : String :=
  "# ... and " ++ toString n ++ " more imports"

/-- The remainder note `f"# ... and {len(definitions) - 30} more definitions"`
(generator.py line 709). -/
def pyMoreDefsNote (n : Nat) : String :=
  "# ... and " ++ toString n ++ " more definitions"

/-- The imports block of `_compress_python_file` (generator.py lines
677-684): header, the first 20 import lines, a remainder note when more than
20 exist, and a blank line; nothing when there are no imports. -/
def pyImportsSection (lines : List String) : List String :=
  let imports := lines.filter isPyImportLine
  if imports.isEmpty then []
  else
    ("## Imports:") :: (imports.take 20 ++
      (if 20 < imports.length then [pyMoreImportsNote (imports.length - 20)] else []) ++ [""])

/-- The definitions block of `_compress_python_file` (generator.py lines
697-709): header, then for each of the first 30 scanned definitions the
definition line, its context lines and a blank line, then a remainder note
when more than 30 exist; nothing when the scan is empty. -/
def pyDefsSection (lines : List String) : List String :=
  let defs := pyDefScan lines
  if defs.isEmpty then []
  else
    ("## Key Definitions:") ::
      ((defs.take 30).flatMap (fun p => p.2 :: (pyCtx lines p.1 ++ [""])) ++
       (if 30 < defs.length then [pyMoreDefsNote (defs.length - 30)] else []))

/-- The trailing head/tail block of `_compress_python_file` (generator.py
lines 711-714): a header, `''.join(lines[:50])`, an elision marker and
`''.join(lines[-50:])` (for fewer than 50 lines, the slices are the whole
list). -/
def pyTailSection (lines : List String) : List String :=
  ["\n# Full file content (truncated):",
   joinAll (lines.take 50),
   "\n... (middle section omitted) ...\n",
   joinAll (lines.drop (lines.length - 50))]

/-- `MarkdownGenerator._compress_python_file` (generator.py lines 672-716):
the blocks above joined with newlines, preceded by the fixed header line. -/
def compressPythonFile (lines : List String) : String :=
  joinLines (("# File structure and key components:\n") ::
    (pyImportsSection lines ++ pyDefsSection lines ++ pyTailSection lines))

/-- The generic branch of `MarkdownGenerator._compress_file_content`
(generator.py lines 666-670), used for every language without a dedicated
digest: more than 100 lines yields first 50, a truncation note and last 50
joined with newlines; otherwise the content is returned unchanged. -/
def compressGenericFile (content : String) : String :=
  let lines := pySplit content ("\n")
  if 100 < lines.length then
    joinLines (lines.take 50) ++
      "\n\n... (truncated, showing first 50 of " ++ toString lines.length ++ " lines) ...\n\n" ++
      joinLines (lines.drop (lines.length - 50))
  else content

/-! ## Spec-side glob matcher (for comparison with the code's exact match) -/

/-- Modelled from the spec: the explicit-list matching is described as
"supporting simple glob-style `*`/`?` wildcards against `relativePath`".
This is the standard semantics of such patterns (`*` matches any character
run, `?` any single character); the code itself contains no wildcard
matching, which is what claim C6's counterexample exhibits. -/
def specGlobMatchAux : Nat → List Char → List Char → Bool
  | 0, _, _ => false
  | _ + 1, [], [] => true
  | _ + 1, [], _ :: _ => false
  | fuel + 1, c :: ps, [] => if c = '*' then specGlobMatchAux fuel ps [] else false
  | fuel + 1, p :: ps, c :: cs =>
    if p = '*' then specGlobMatchAux fuel ps (c :: cs) || specGlobMatchAux fuel (p :: ps) cs
    else if p = '?' then specGlobMatchAux fuel ps cs
    else p = c && specGlobMatchAux fuel ps cs

/-- Modelled from the spec (entry point): every recursive step of the
matcher consumes at least one character of the pattern or of the string, so
`pattern.length + string.length + 1` units of fuel always suffice. -/
def specGlobMatch (p s : List Char) : Bool :=
  specGlobMatchAux (p.length + s.length + 1) p s

/-! ## Concrete records and configurations used by witnesses and counterexamples -/

/-- An important 80-byte file (20 estimated tokens). -/
def fA1 : FileInfo := ⟨"a.py", "a.py", 80, 10, "python", true, 0⟩

/-- An important 20-byte file (5 estimated tokens). -/
def fB1 : FileInfo := ⟨"b.py", "b.py", 20, 10, "python", true, 0⟩

/-- An important 100-byte file (25 estimated tokens). -/
def fA2 : FileInfo := ⟨"big.py", "big.py", 100, 10, "python", true, 0⟩

/-- A regular 4-byte file (1 estimated token). -/
def fC3x : FileInfo := ⟨"r.py", "r.py", 4, 1, "python", false, 0⟩

/-- A regular file whose relative path a glob pattern would match. -/
def fC6 : FileInfo := ⟨"a.py", "a.py", 10, 1, "python", false, 0⟩

/-- Explicit-list config, token cap 10, compression disabled. -/
def cfgC1x : GenerationConfig :=
  { max_tokens := some 10, compress_large_files := false,
    files_to_analyze := some ["a.py", "b.py"] }

/-- Explicit-list config with compression enabled (witness side of C1). -/
def cfgC1w : GenerationConfig :=
  { compress_large_files := true, files_to_analyze := some ["a.py"] }

/-- Size cap 50, compression enabled, ample token budget. -/
def cfgC2x : GenerationConfig :=
  { max_tokens := some 1000, max_file_size := some 50, compress_large_files := true }

/-- Token cap set to `0`, compression disabled: Python treats the cap as
falsy and does not enforce it. -/
def cfgC3x : GenerationConfig := { max_tokens := some 0, compress_large_files := false }

/-- Positive token cap 10, compression disabled (witness side of C3). -/
def cfgC3w : GenerationConfig := { max_tokens := some 10, compress_large_files := false }

/-- File cap set to `0`: Python treats the cap as falsy. -/
def cfgC5x : GenerationConfig := { max_files := some 0 }

/-- File cap 1 (witness side of C5). -/
def cfgC5w : GenerationConfig := { max_files := some 1 }

/-- Explicit list containing a wildcard pattern. -/
def cfgC6x : GenerationConfig := { files_to_analyze := some ["*.py"] }

/-- Explicit list matching nothing, token cap 10, compression disabled. -/
def cfgC7x : GenerationConfig :=
  { max_tokens := some 10, compress_large_files := false,
    files_to_analyze := some ["nope.xyz"] }

/-- 21 lines each reading `from a`: more than 20 import lines. -/
def c21 : String := joinLines (List.replicate 21 ("from a"))

/-- A no-op comment stripper (used to instantiate the external collaborator
in witnesses). -/
def stripNoop : String → String → String := fun _ c => c

/-- A concrete record for renderer witnesses. -/
def fR : FileInfo := ⟨"m.py", "m.py", 100, 60, "python", true, 0⟩

/-- A renderer config with comments kept. -/
def cfgR1 : GenerationConfig := { compress_large_files := true, compress_threshold_lines := 200 }

/-- Same as `cfgR1` except both compression settings differ. -/
def cfgR2 : GenerationConfig := { compress_large_files := false, compress_threshold_lines := 10 }

/-! ## Helper lemmas about the selection loops -/

theorem sfImportant_shape (cfg : GenerationConfig) (l : List FileInfo) :
    ∀ s t, ∃ u, (sfImportant cfg l s t).1 = s ++ u ∧ u.Sublist l := by
  induction l with
  | nil => intro s t; exact ⟨[], by simp [sfImportant], List.nil_sublist _⟩
  | cons f rest ih =>
    intro s t
    by_cases h1 : maxFilesReached cfg s
    · exact ⟨[], by simp [sfImportant, h1], List.nil_sublist _⟩
    · by_cases h2 : (oversize cfg f && !cfg.compress_large_files)
      · obtain ⟨u, hu, hs⟩ := ih s t
        exact ⟨u, by simp [sfImportant, h1, h2, hu], hs.cons f⟩
      · by_cases h3 : tokenOverflow cfg t (estimateTokens f.size)
        · by_cases h4 : cfg.compress_large_files
          · obtain ⟨u, hu, hs⟩ := ih (s ++ [f]) (t + estimateTokens f.size / 3)
            exact ⟨f :: u, by simp [sfImportant, h1, h2, h3, h4, hu], hs.cons₂ f⟩
          · obtain ⟨u, hu, hs⟩ := ih s t
            exact ⟨u, by simp [sfImportant, h1, h2, h3, h4, hu], hs.cons f⟩
        · obtain ⟨u, hu, hs⟩ := ih (s ++ [f]) (t + estimateTokens f.size)
          exact ⟨f :: u, by simp [sfImportant, h1, h2, h3, hu], hs.cons₂ f⟩

theorem aglImportant_shape (cfg : GenerationConfig) (l : List FileInfo) :
    ∀ s t, ∃ u, (aglImportant cfg l s t).1 = s ++ u ∧ u.Sublist l := by
  induction l with
  | nil => intro s t; exact ⟨[], by simp [aglImportant], List.nil_sublist _⟩
  | cons f rest ih =>
    intro s t
    by_cases h1 : maxFilesReached cfg s
    · exact ⟨[], by simp [aglImportant, h1], List.nil_sublist _⟩
    · by_cases h2 : (oversize cfg f && !cfg.compress_large_files)
      · obtain ⟨u, hu, hs⟩ := ih s t
        exact ⟨u, by simp [aglImportant, h1, h2, hu], hs.cons f⟩
      · by_cases h3 : tokenOverflow cfg t (estimateTokens f.size)
        · by_cases h4 : cfg.compress_large_files
          · obtain ⟨u, hu, hs⟩ := ih (s ++ [f]) (t + estimateTokens f.size / 3)
            exact ⟨f :: u, by simp [aglImportant, h1, h2, h3, h4, hu], hs.cons₂ f⟩
          · have hov : oversize cfg f = false := by revert h2; simp [h4]
            exact ⟨[], by simp [aglImportant, h1, hov, h3, h4], List.nil_sublist _⟩
        · obtain ⟨u, hu, hs⟩ := ih (s ++ [f]) (t + estimateTokens f.size)
          exact ⟨f :: u, by simp [aglImportant, h1, h2, h3, hu], hs.cons₂ f⟩

theorem selectRegularLoop_shape (cfg : GenerationConfig) (l : List FileInfo) :
    ∀ s t, ∃ u, (selectRegularLoop cfg l s t).1 = s ++ u ∧ u.Sublist l := by
  induction l with
  | nil => intro s t; exact ⟨[], by simp [selectRegularLoop], List.nil_sublist _⟩
  | cons f rest ih =>
    intro s t
    by_cases h1 : maxFilesReached cfg s
    · exact ⟨[], by simp [selectRegularLoop, h1], List.nil_sublist _⟩
    · by_cases h2 : oversize cfg f
      · obtain ⟨u, hu, hs⟩ := ih s t
        exact ⟨u, by simp [selectRegularLoop, h1, h2, hu], hs.cons f⟩
      · by_cases h3 : tokenOverflow cfg t (estimateTokens f.size)
        · exact ⟨[], by simp [selectRegularLoop, h1, h2, h3], List.nil_sublist _⟩
        · obtain ⟨u, hu, hs⟩ := ih (s ++ [f]) (t + estimateTokens f.size)
          exact ⟨f :: u, by simp [selectRegularLoop, h1, h2, h3, hu], hs.cons₂ f⟩

theorem sfImportant_length (cfg : GenerationConfig) (m : ℕ) (hm : cfg.max_files = some m)
    (h0 : m ≠ 0) (l : List FileInfo) :
    ∀ s t, s.length ≤ m → ((sfImportant cfg l s t).1).length ≤ m := by
  induction l with
  | nil => intro s t hs; simpa [sfImportant] using hs
  | cons f rest ih =>
    intro s t hs
    by_cases h1 : maxFilesReached cfg s
    · simpa [sfImportant, h1] using hs
    · have hlt : s.length < m := by
        have := h1
        simp [maxFilesReached, truthyNat, hm, h0] at this
        omega
      by_cases h2 : (oversize cfg f && !cfg.compress_large_files)
      · simpa [sfImportant, h1, h2] using ih s t hs
      · by_cases h3 : tokenOverflow cfg t (estimateTokens f.size)
        · by_cases h4 : cfg.compress_large_files
          · have := ih (s ++ [f]) (t + estimateTokens f.size / 3) (by simp; omega)
            simpa [sfImportant, h1, h2, h3, h4] using this
          · simpa [sfImportant, h1, h2, h3, h4] using ih s t hs
        · have := ih (s ++ [f]) (t + estimateTokens f.size) (by simp; omega)
          simpa [sfImportant, h1, h2, h3] using this

theorem aglImportant_length (cfg : GenerationConfig) (m : ℕ) (hm : cfg.max_files = some m)
    (h0 : m ≠ 0) (l : List FileInfo) :
    ∀ s t, s.length ≤ m → ((aglImportant cfg l s t).1).length ≤ m := by
  induction l with
  | nil => intro s t hs; simpa [aglImportant] using hs
  | cons f rest ih =>
    intro s t hs
    by_cases h1 : maxFilesReached cfg s
    · simpa [aglImportant, h1] using hs
    · have hlt : s.length < m := by
        have := h1
        simp [maxFilesReached, truthyNat, hm, h0] at this
        omega
      by_cases h2 : (oversize cfg f && !cfg.compress_large_files)
      · simpa [aglImportant, h1, h2] using ih s t hs
      · by_cases h3 : tokenOverflow cfg t (estimateTokens f.size)
        · by_cases h4 : cfg.compress_large_files
          · have := ih (s ++ [f]) (t + estimateTokens f.size / 3) (by simp; omega)
            simpa [aglImportant, h1, h2, h3, h4] using this
          · have hov : oversize cfg f = false := by revert h2; simp [h4]
            simpa [aglImportant, h1, hov, h3, h4] using hs
        · have := ih (s ++ [f]) (t + estimateTokens f.size) (by simp; omega)
          simpa [aglImportant, h1, h2, h3] using this

theorem selectRegularLoop_length (cfg : GenerationConfig) (m : ℕ) (hm : cfg.max_files = some m)
    (h0 : m ≠ 0) (l : List FileInfo) :
    ∀ s t, s.length ≤ m → ((selectRegularLoop cfg l s t).1).length ≤ m := by
  induction l with
  | nil => intro s t hs; simpa [selectRegularLoop] using hs
  | cons f rest ih =>
    intro s t hs
    by_cases h1 : maxFilesReached cfg s
    · simpa [selectRegularLoop, h1] using hs
    · have hlt : s.length < m := by
        have := h1
        simp [maxFilesReached, truthyNat, hm, h0] at this
        omega
      by_cases h2 : oversize cfg f
      · simpa [selectRegularLoop, h1, h2] using ih s t hs
      · by_cases h3 : tokenOverflow cfg t (estimateTokens f.size)
        · simpa [selectRegularLoop, h1, h2, h3] using hs
        · have := ih (s ++ [f]) (t + estimateTokens f.size) (by simp; omega)
          simpa [selectRegularLoop, h1, h2, h3] using this

theorem sfImportant_total (cfg : GenerationConfig) (mt : ℕ) (hmt : cfg.max_tokens = some mt)
    (h0 : mt ≠ 0) (hc : cfg.compress_large_files = false) (l : List FileInfo) :
    ∀ s t, t ≤ mt → (sfImportant cfg l s t).2 ≤ mt := by
  induction l with
  | nil => intro s t ht; simpa [sfImportant] using ht
  | cons f rest ih =>
    intro s t ht
    by_cases h1 : maxFilesReached cfg s
    · simpa [sfImportant, h1] using ht
    · by_cases h2 : (oversize cfg f && !cfg.compress_large_files)
      · simpa [sfImportant, h1, h2] using ih s t ht
      · by_cases h3 : tokenOverflow cfg t (estimateTokens f.size)
        · simpa [sfImportant, h1, h2, h3, hc] using ih s t ht
        · have hle : t + estimateTokens f.size ≤ mt := by
            have := h3
            simp [tokenOverflow, truthyNat, hmt, h0] at this
            omega
          simpa [sfImportant, h1, h2, h3] using ih (s ++ [f]) (t + estimateTokens f.size) hle

theorem aglImportant_total (cfg : GenerationConfig) (mt : ℕ) (hmt : cfg.max_tokens = some mt)
    (h0 : mt ≠ 0) (hc : cfg.compress_large_files = false) (l : List FileInfo) :
    ∀ s t, t ≤ mt → (aglImportant cfg l s t).2 ≤ mt := by
  induction l with
  | nil => intro s t ht; simpa [aglImportant] using ht
  | cons f rest ih =>
    intro s t ht
    by_cases h1 : maxFilesReached cfg s
    · simpa [aglImportant, h1] using ht
    · by_cases h2 : (oversize cfg f && !cfg.compress_large_files)
      · simpa [aglImportant, h1, h2] using ih s t ht
      · by_cases h3 : tokenOverflow cfg t (estimateTokens f.size)
        · have hov : oversize cfg f = false := by revert h2; simp [hc]
          simpa [aglImportant, h1, hov, h3, hc] using ht
        · have hle : t + estimateTokens f.size ≤ mt := by
            have := h3
            simp [tokenOverflow, truthyNat, hmt, h0] at this
            omega
          simpa [aglImportant, h1, h2, h3] using ih (s ++ [f]) (t + estimateTokens f.size) hle

theorem selectRegularLoop_total (cfg : GenerationConfig) (mt : ℕ) (hmt : cfg.max_tokens = some mt)
    (h0 : mt ≠ 0) (l : List FileInfo) :
    ∀ s t, (selectRegularLoop cfg l s t).2 ≤ max t mt := by
  induction l with
  | nil => intro s t; simp [selectRegularLoop]
  | cons f rest ih =>
    intro s t
    by_cases h1 : maxFilesReached cfg s
    · simp [selectRegularLoop, h1]
    · by_cases h2 : oversize cfg f
      · simpa [selectRegularLoop, h1, h2] using ih s t
      · by_cases h3 : tokenOverflow cfg t (estimateTokens f.size)
        · simp [selectRegularLoop, h1, h2, h3]
        · have hle : t + estimateTokens f.size ≤ mt := by
            have := h3
            simp [tokenOverflow, truthyNat, hmt, h0] at this
            omega
          have := ih (s ++ [f]) (t + estimateTokens f.size)
          have hmax : max (t + estimateTokens f.size) mt = mt := by omega
          rw [hmax] at this
          calc (selectRegularLoop cfg (f :: rest) s t).2
              = (selectRegularLoop cfg rest (s ++ [f]) (t + estimateTokens f.size)).2 := by
                simp [selectRegularLoop, h1, h2, h3]
            _ ≤ mt := this
            _ ≤ max t mt := le_max_right _ _

theorem sfImportant_eq_aglImportant (cfg : GenerationConfig)
    (hc : cfg.compress_large_files = true ∨ truthyNat cfg.max_tokens = false)
    (l : List FileInfo) : ∀ s t, sfImportant cfg l s t = aglImportant cfg l s t := by
  induction l with
  | nil => intro s t; simp [sfImportant, aglImportant]
  | cons f rest ih =>
    intro s t
    by_cases h1 : maxFilesReached cfg s
    · simp [sfImportant, aglImportant, h1]
    · by_cases h2 : (oversize cfg f && !cfg.compress_large_files)
      · simp [sfImportant, aglImportant, h1, h2, ih]
      · by_cases h3 : tokenOverflow cfg t (estimateTokens f.size)
        · rcases hc with hc | hc
          · simp [sfImportant, aglImportant, h1, h2, h3, hc, ih]
          · exact absurd h3 (by simp [tokenOverflow, hc])
        · simp [sfImportant, aglImportant, h1, h2, h3, ih]

/-! ## Mode-level helper lemmas -/

theorem selectFilesNormalPair_shape (cfg : GenerationConfig) (files : List FileInfo) :
    ∃ s1 s2, (selectFilesNormalPair cfg files).1 = s1 ++ s2 ∧
      s1.Sublist (files.filter fun f => f.is_important) ∧
      s2.Sublist (files.filter fun f => !f.is_important) := by
  obtain ⟨u1, hu1, hs1⟩ := sfImportant_shape cfg (files.filter fun f => f.is_important) [] 0
  obtain ⟨u2, hu2, hs2⟩ := selectRegularLoop_shape cfg (files.filter fun f => !f.is_important)
    (sfImportant cfg (files.filter fun f => f.is_important) [] 0).1
    (sfImportant cfg (files.filter fun f => f.is_important) [] 0).2
  refine ⟨u1, u2, ?_, hs1, hs2⟩
  simp only [selectFilesNormalPair]
  rw [hu2, hu1]
  simp

theorem applyGeneralLimitsPair_shape (cfg : GenerationConfig) (files : List FileInfo) :
    ∃ s1 s2, (applyGeneralLimitsPair cfg files).1 = s1 ++ s2 ∧
      s1.Sublist (files.filter fun f => f.is_important) ∧
      s2.Sublist (files.filter fun f => !f.is_important) := by
  obtain ⟨u1, hu1, hs1⟩ := aglImportant_shape cfg (files.filter fun f => f.is_important) [] 0
  obtain ⟨u2, hu2, hs2⟩ := selectRegularLoop_shape cfg (files.filter fun f => !f.is_important)
    (aglImportant cfg (files.filter fun f => f.is_important) [] 0).1
    (aglImportant cfg (files.filter fun f => f.is_important) [] 0).2
  refine ⟨u1, u2, ?_, hs1, hs2⟩
  simp only [applyGeneralLimitsPair]
  rw [hu2, hu1]
  simp

theorem partitionFilters_nodup (files : List FileInfo) (h : files.Nodup) :
    ((files.filter fun f => f.is_important) ++ (files.filter fun f => !f.is_important)).Nodup := by
  refine List.Nodup.append (h.filter _) (h.filter _) ?_
  intro x hx hx'
  simp only [List.mem_filter] at hx hx'
  rw [hx.2] at hx'
  simp at hx'

theorem selectFilesNormalPair_length (cfg : GenerationConfig) (m : ℕ)
    (hm : cfg.max_files = some m) (h0 : m ≠ 0) (cand : List FileInfo) :
    ((selectFilesNormalPair cfg cand).1).length ≤ m := by
  simp only [selectFilesNormalPair]
  exact selectRegularLoop_length cfg m hm h0 _ _ _
    (sfImportant_length cfg m hm h0 _ [] 0 (by simp))

theorem applyGeneralLimitsPair_length (cfg : GenerationConfig) (m : ℕ)
    (hm : cfg.max_files = some m) (h0 : m ≠ 0) (cand : List FileInfo) :
    ((applyGeneralLimitsPair cfg cand).1).length ≤ m := by
  simp only [applyGeneralLimitsPair]
  exact selectRegularLoop_length cfg m hm h0 _ _ _
    (aglImportant_length cfg m hm h0 _ [] 0 (by simp))

theorem selectFilesNormalPair_total (cfg : GenerationConfig) (mt : ℕ)
    (hmt : cfg.max_tokens = some mt) (h0 : mt ≠ 0) (hc : cfg.compress_large_files = false)
    (cand : List FileInfo) : (selectFilesNormalPair cfg cand).2 ≤ mt := by
  simp only [selectFilesNormalPair]
  have h1 := sfImportant_total cfg mt hmt h0 hc (cand.filter fun f => f.is_important)
    [] 0 (Nat.zero_le mt)
  have h2 := selectRegularLoop_total cfg mt hmt h0 (cand.filter fun f => !f.is_important)
    (sfImportant cfg (cand.filter fun f => f.is_important) [] 0).1
    (sfImportant cfg (cand.filter fun f => f.is_important) [] 0).2
  omega

theorem applyGeneralLimitsPair_total (cfg : GenerationConfig) (mt : ℕ)
    (hmt : cfg.max_tokens = some mt) (h0 : mt ≠ 0) (hc : cfg.compress_large_files = false)
    (cand : List FileInfo) : (applyGeneralLimitsPair cfg cand).2 ≤ mt := by
  simp only [applyGeneralLimitsPair]
  have h1 := aglImportant_total cfg mt hmt h0 hc (cand.filter fun f => f.is_important)
    [] 0 (Nat.zero_le mt)
  have h2 := selectRegularLoop_total cfg mt hmt h0 (cand.filter fun f => !f.is_important)
    (aglImportant cfg (cand.filter fun f => f.is_important) [] 0).1
    (aglImportant cfg (cand.filter fun f => f.is_important) [] 0).2
  omega

theorem selectFilesNormalPair_eq_applyGeneralLimitsPair (cfg : GenerationConfig)
    (hc : cfg.compress_large_files = true ∨ truthyNat cfg.max_tokens = false)
    (cand : List FileInfo) : selectFilesNormalPair cfg cand = applyGeneralLimitsPair cfg cand := by
  simp only [selectFilesNormalPair, applyGeneralLimitsPair,
    sfImportant_eq_aglImportant cfg hc]

/-! ## Claim C1 -/

/-- C1, counterexample.  With `maxTokens = 10`, `compressLargeFiles = false`
and both important files matched by the explicit list, explicit-list mode
(via `_apply_general_limits`) stops the important partition at the 80-byte
file (20 tokens overflow the cap, `break`) and selects nothing, while the
normal-mode allocation on the same candidate pool skips it and still selects
the 20-byte file (`continue`).  The allocation policies therefore differ. -/
theorem C1_counterexample :
    (selectFiles cfgC1x [fA1, fB1]).1 ≠
      selectFilesNormal cfgC1x (explicitMatches ((["a.py", "b.py"]).map posixNormalize) [fA1, fB1]) ∧
    (selectFiles cfgC1x [fA1, fB1]).1 = [] ∧
    selectFilesNormal cfgC1x (explicitMatches ((["a.py", "b.py"]).map posixNormalize) [fA1, fB1]) = [fB1] := by
  refine ⟨?_, ?_, ?_⟩ <;> decide

/-- C1, amended.  Explicit-list mode restricts the candidate pool and then
runs `_apply_general_limits`, which agrees with the normal-mode allocation
whenever `compressLargeFiles` is true or no (truthy) `maxTokens` cap is set;
with a token cap and compression disabled the two differ on an important
record that overflows the budget (normal mode skips it and continues,
explicit-list mode stops the important partition). -/
theorem C1_theorem (cfg : GenerationConfig) (files : List FileInfo) (entries : List String)
    (h1 : cfg.files_to_analyze = some entries) (h2 : entries ≠ [])
    (h3 : explicitMatches (entries.map posixNormalize) files ≠ [])
    (hc : cfg.compress_large_files = true ∨ truthyNat cfg.max_tokens = false) :
    (selectFiles cfg files).1 =
      selectFilesNormal cfg (explicitMatches (entries.map posixNormalize) files) := by
  have he : entries.isEmpty = false := by simpa [List.isEmpty_iff] using h2
  have hm : (explicitMatches (entries.map posixNormalize) files).isEmpty = false := by
    simpa [List.isEmpty_iff] using h3
  simp only [selectFiles, selectFilesPair, selectFilesNormal, h1, he, hm,
    Bool.false_eq_true, if_false]
  rw [selectFilesNormalPair_eq_applyGeneralLimitsPair cfg hc]

/-- C1, witness: with compression enabled both allocation paths coincide on
the matched pool. -/
theorem C1_witness :
    (selectFiles cfgC1w [fA1]).1 =
      selectFilesNormal cfgC1w (explicitMatches ((["a.py"]).map posixNormalize) [fA1]) :=
  C1_theorem cfgC1w [fA1] ["a.py"] rfl (by decide) (by decide) (Or.inl rfl)

/-! ## Claim C2 -/

/-- C2, counterexample.  `fA2` is important, 100 bytes, above the 50-byte
cap, and compression is enabled; the claim predicts a charge of
`estimateTokens 100 / 3 = 8`, but the code includes the record through the
ordinary token-budget path (the budget 1000 is not exceeded) and charges the
full 25 tokens. -/
theorem C2_counterexample :
    oversize cfgC2x fA2 = true ∧
    cfgC2x.compress_large_files = true ∧
    selectFilesNormal cfgC2x [fA2] = [fA2] ∧
    (selectFilesNormalPair cfgC2x [fA2]).2 = 25 ∧
    estimateTokens fA2.size / 3 = 8 ∧
    (selectFilesNormalPair cfgC2x [fA2]).2 ≠ estimateTokens fA2.size / 3 := by
  refine ⟨?_, ?_, ?_, ?_, ?_, ?_⟩ <;> decide

/-- C2, amended.  An important record above `maxFileSizeBytes` with
`compressLargeFiles` true is not skipped by the size check, but it is not
charged `estimatedTokens / 3` either: it proceeds into the token-budget
logic, is included at its full token cost when within the budget (or when no
budget is set), and is included at cost `fileTokens / 3` only when inclusion
would overflow `maxTokens`.  A regular record above `maxFileSizeBytes` is
always skipped, whatever the compression flag (second conjunct, quantified
over an arbitrary configuration). -/
theorem C2_theorem (cfg : GenerationConfig) (f : FileInfo) (rest s : List FileInfo) (t : ℕ)
    (hov : oversize cfg f = true) (hc : cfg.compress_large_files = true)
    (hnb : maxFilesReached cfg s = false) :
    (sfImportant cfg (f :: rest) s t =
      if tokenOverflow cfg t (estimateTokens f.size) then
        sfImportant cfg rest (s ++ [f]) (t + estimateTokens f.size / 3)
      else
        sfImportant cfg rest (s ++ [f]) (t + estimateTokens f.size)) ∧
    (∀ cfg2 : GenerationConfig, oversize cfg2 f = true → maxFilesReached cfg2 s = false →
      selectRegularLoop cfg2 (f :: rest) s t = selectRegularLoop cfg2 rest s t) := by
  constructor
  · by_cases h3 : tokenOverflow cfg t (estimateTokens f.size) <;>
      simp [sfImportant, hnb, hov, hc, h3]
  · intro cfg2 hov2 hnb2
    simp [selectRegularLoop, hnb2, hov2]

/-- C2, witness. -/
theorem C2_witness :
    sfImportant cfgC2x [fA2] [] 0 =
      (if tokenOverflow cfgC2x 0 (estimateTokens fA2.size) then
        sfImportant cfgC2x [] ([] ++ [fA2]) (0 + estimateTokens fA2.size / 3)
      else
        sfImportant cfgC2x [] ([] ++ [fA2]) (0 + estimateTokens fA2.size)) :=
  (C2_theorem cfgC2x fA2 [] [] 0 (by decide) rfl (by decide)).1

/-! ## Claim C3 -/

/-- C3, counterexample.  `maxTokens` set to `0` is falsy in Python, so the
cap is not enforced: with compression disabled, a regular 4-byte file is
included and the charged total (1) exceeds the cap (0). -/
theorem C3_counterexample :
    cfgC3x.max_tokens = some 0 ∧
    cfgC3x.compress_large_files = false ∧
    fC3x.is_important = false ∧
    selectFilesNormal cfgC3x [fC3x] = [fC3x] ∧
    (selectFilesNormalPair cfgC3x [fC3x]).2 = 1 := by
  refine ⟨?_, ?_, ?_, ?_, ?_⟩ <;> decide

/-- C3, amended.  For `maxTokens` set to a positive value: with
`compressLargeFiles` false the cumulative charged token total of the
selection (in either mode) never exceeds `maxTokens`; and regardless of the
compression flag, the regular-partition loop never lets an inclusion push
the running total past `maxTokens` (its final total is bounded by the
maximum of its entry total and the cap). -/
theorem C3_theorem (cfg : GenerationConfig) (files reg s : List FileInfo) (t mt : ℕ)
    (hmt : cfg.max_tokens = some mt) (h0 : 0 < mt) :
    (cfg.compress_large_files = false → ((selectFilesPair cfg files).1).2 ≤ mt) ∧
    (selectRegularLoop cfg reg s t).2 ≤ max t mt := by
  have h0' : mt ≠ 0 := by omega
  constructor
  · intro hc
    simp only [selectFilesPair]
    cases hfa : cfg.files_to_analyze with
    | none => exact selectFilesNormalPair_total cfg mt hmt h0' hc files
    | some entries =>
      by_cases he : entries.isEmpty <;> by_cases hm :
          (explicitMatches (entries.map posixNormalize) files).isEmpty <;>
        simp [he, hm, selectFilesNormalPair_total cfg mt hmt h0' hc,
          applyGeneralLimitsPair_total cfg mt hmt h0' hc]
  · exact selectRegularLoop_total cfg mt hmt h0' reg s t

/-- C3, witness. -/
theorem C3_witness :
    ((selectFilesPair cfgC3w [fA1, fC3x]).1).2 ≤ 10 ∧
    (selectRegularLoop cfgC3w [fC3x] [] 7).2 ≤ max 7 10 :=
  ⟨(C3_theorem cfgC3w [fA1, fC3x] [] [] 0 10 rfl (by decide)).1 rfl,
   (C3_theorem cfgC3w [] [fC3x] [] 7 10 rfl (by decide)).2⟩

/-! ## Claim C4 -/

/-- C4, confirmed.  In every mode the selection is a concatenation `s1 ++ s2`
where `s1` is a subsequence of the important records of the input in input
order, and `s2` a subsequence of the regular records in input order; so
the important records precede all regular ones, relative order within each
partition is preserved (the selector never re-sorts), and a duplicate-free
input yields a duplicate-free selection. -/
theorem C4_theorem (cfg : GenerationConfig) (files : List FileInfo) :
    ∃ s1 s2, (selectFiles cfg files).1 = s1 ++ s2 ∧
      s1.Sublist (files.filter fun f => f.is_important) ∧
      s2.Sublist (files.filter fun f => !f.is_important) ∧
      (files.Nodup → ((selectFiles cfg files).1).Nodup) := by
  have main : ∀ cand : List FileInfo, cand.Sublist files →
      ∀ pr : List FileInfo × ℕ,
        (∃ s1 s2, pr.1 = s1 ++ s2 ∧
          s1.Sublist (cand.filter fun f => f.is_important) ∧
          s2.Sublist (cand.filter fun f => !f.is_important)) →
        ∃ s1 s2, pr.1 = s1 ++ s2 ∧
          s1.Sublist (files.filter fun f => f.is_important) ∧
          s2.Sublist (files.filter fun f => !f.is_important) ∧
          (files.Nodup → pr.1.Nodup) := by
    intro cand hcand pr hpr
    obtain ⟨s1, s2, heq, hs1, hs2⟩ := hpr
    refine ⟨s1, s2, heq,
      hs1.trans (hcand.filter _), hs2.trans (hcand.filter _), ?_⟩
    intro hnd
    have hcnd : cand.Nodup := hnd.sublist hcand
    have : (s1 ++ s2).Sublist
        ((cand.filter fun f => f.is_important) ++ (cand.filter fun f => !f.is_important)) :=
      List.Sublist.append hs1 hs2
    rw [heq]
    exact (partitionFilters_nodup cand hcnd).sublist this
  simp only [selectFiles, selectFilesPair]
  cases hfa : cfg.files_to_analyze with
  | none =>
    exact main files (List.Sublist.refl files) _ (selectFilesNormalPair_shape cfg files)
  | some entries =>
    by_cases he : entries.isEmpty
    · simpa [he] using
        main files (List.Sublist.refl files) _ (selectFilesNormalPair_shape cfg files)
    · by_cases hm : (explicitMatches (entries.map posixNormalize) files).isEmpty
      · simpa [he, hm] using
          main files (List.Sublist.refl files) _ (applyGeneralLimitsPair_shape cfg files)
      · simpa [he, hm] using
          main (explicitMatches (entries.map posixNormalize) files)
            (List.filter_sublist files) _
            (applyGeneralLimitsPair_shape cfg
              (explicitMatches (entries.map posixNormalize) files))

/-- C4, witness (the statement carries the inner `Nodup` hypothesis). -/
theorem C4_witness :
    ∃ s1 s2, (selectFiles cfgC1w [fC3x, fA1]).1 = s1 ++ s2 ∧
      s1.Sublist ([fC3x, fA1].filter fun f => f.is_important) ∧
      s2.Sublist ([fC3x, fA1].filter fun f => !f.is_important) ∧
      ([fC3x, fA1].Nodup → ((selectFiles cfgC1w [fC3x, fA1]).1).Nodup) :=
  C4_theorem cfgC1w [fC3x, fA1]

/-! ## Claim C5 -/

/-- C5, counterexample.  `maxFiles` set to `0` is falsy in Python, so the cap
is not enforced and a one-element selection exceeds it. -/
theorem C5_counterexample :
    cfgC5x.max_files = some 0 ∧ ((selectFiles cfgC5x [fC3x]).1).length = 1 := by
  exact ⟨rfl, by decide⟩

/-- C5, amended.  For `maxFiles` set to a positive value, the number of
selected records is at most `maxFiles`, in normal mode, in explicit-list
mode, and under the empty-match fallback. -/
theorem C5_theorem (cfg : GenerationConfig) (files : List FileInfo) (m : ℕ)
    (hm : cfg.max_files = some m) (h0 : 0 < m) :
    ((selectFiles cfg files).1).length ≤ m := by
  have h0' : m ≠ 0 := by omega
  simp only [selectFiles, selectFilesPair]
  cases hfa : cfg.files_to_analyze with
  | none => exact selectFilesNormalPair_length cfg m hm h0' files
  | some entries =>
    by_cases he : entries.isEmpty <;> by_cases hmm :
        (explicitMatches (entries.map posixNormalize) files).isEmpty <;>
      simp [he, hmm, selectFilesNormalPair_length cfg m hm h0',
        applyGeneralLimitsPair_length cfg m hm h0']

/-- C5, witness. -/
theorem C5_witness : ((selectFiles cfgC5w [fA1, fB1, fC3x]).1).length ≤ 1 :=
  C5_theorem cfgC5w [fA1, fB1, fC3x] 1 rfl (by decide)

/-! ## Claim C6 -/

/-- C6, counterexample.  The entry `*.py` glob-matches the relative path
`a.py` (spec-side matcher) and is not equal to it, yet the record is not a
candidate — the code performs exact string membership only, and selection
falls back to the full list with a warning. -/
theorem C6_counterexample :
    specGlobMatch ("*.py").data ("a.py").data = true ∧
    ("*.py" : String) ≠ "a.py" ∧
    explicitMatches ["*.py"] [fC6] = [] ∧
    selectFiles cfgC6x [fC6] = ([fC6], true) := by
  refine ⟨?_, ?_, ?_, ?_⟩ <;> decide

/-- C6, amended.  In explicit-list mode a record is a candidate exactly when
its `relativePath` or its file-name component is string-equal to some entry;
`*` and `?` are not interpreted as wildcards. -/
theorem C6_theorem (specified : List String) (files : List FileInfo) (f : FileInfo) :
    f ∈ explicitMatches specified files ↔
      f ∈ files ∧ (f.relative_path ∈ specified ∨ f.path_name ∈ specified) := by
  simp [explicitMatches, List.mem_filter]

/-! ## Claim C7 -/

/-- C7, counterexample.  With `filesToAnalyze = ["nope.xyz"]` matching
nothing, `maxTokens = 10` and compression disabled, the fallback applies
`_apply_general_limits` to the full list and returns the empty selection
(with the warning), while normal mode on the same list returns the 20-byte
file — the fallback is not equivalent to normal mode. -/
theorem C7_counterexample :
    selectFiles cfgC7x [fA1, fB1] = ([], true) ∧
    selectFilesNormal cfgC7x [fA1, fB1] = [fB1] ∧
    ([] : List FileInfo) ≠ [fB1] := by
  refine ⟨?_, ?_, ?_⟩ <;> decide

/-- C7, amended.  `select` is total (never raises for data-shape reasons):
an empty file list yields an empty selection with no warning-free failure,
and a non-empty `filesToAnalyze` matching no record falls back to the full
file list with a warning on the side channel, applying the
`_apply_general_limits` allocation to it (which can differ from the
normal-mode allocation when a token cap is set and compression disabled). -/
theorem C7_theorem (cfg : GenerationConfig) (files : List FileInfo) (entries : List String) :
    (selectFiles cfg []).1 = [] ∧
    (cfg.files_to_analyze = some entries → entries ≠ [] →
      explicitMatches (entries.map posixNormalize) files = [] →
      selectFiles cfg files = (applyGeneralLimits cfg files, true)) := by
  constructor
  · simp only [selectFiles, selectFilesPair]
    cases hfa : cfg.files_to_analyze with
    | none => simp [selectFilesNormalPair, sfImportant, selectRegularLoop]
    | some entries2 =>
      by_cases he : entries2.isEmpty <;>
        simp [he, explicitMatches, selectFilesNormalPair, applyGeneralLimitsPair,
          sfImportant, aglImportant, selectRegularLoop]
  · intro h1 h2 h3
    have he : entries.isEmpty = false := by simpa [List.isEmpty_iff] using h2
    have hm : (explicitMatches (entries.map posixNormalize) files).isEmpty = true := by
      simp [List.isEmpty_iff, h3]
    simp [selectFiles, selectFilesPair, applyGeneralLimits, h1, he, hm]

/-- C7, witness. -/
theorem C7_witness :
    (selectFiles cfgC7x []).1 = [] ∧
    selectFiles cfgC7x [fA1, fB1] = (applyGeneralLimits cfgC7x [fA1, fB1], true) :=
  ⟨(C7_theorem cfgC7x [fA1, fB1] ["nope.xyz"]).1,
   (C7_theorem cfgC7x [fA1, fB1] ["nope.xyz"]).2 rfl (by decide) (by decide)⟩

/-! ## Claim C8 -/

/-- C8, confirmed.  The token estimator is a pure function of the byte size
equal to `⌊size * 0.25⌋` (`TOKENS_PER_CHAR = 0.25`), and it is monotone. -/
theorem C8_theorem :
    (∀ size : ℕ, estimateTokens size = ⌊(size : ℚ) * TOKENS_PER_CHAR⌋₊) ∧
    (∀ a b : ℕ, a ≤ b → estimateTokens a ≤ estimateTokens b) := by
  constructor
  · intro size
    have h : (size : ℚ) * TOKENS_PER_CHAR = (size : ℚ) / (4 : ℕ) := by
      rw [show TOKENS_PER_CHAR = 1 / 4 from by norm_num [TOKENS_PER_CHAR]]
      push_cast
      ring
    rw [h, Nat.floor_div_nat, Nat.floor_natCast]
    rfl
  · intro a b hab
    exact Nat.div_le_div_right hab

/-- C8, witness. -/
theorem C8_witness : estimateTokens 100 = ⌊(100 : ℚ) * TOKENS_PER_CHAR⌋₊ ∧
    estimateTokens 7 ≤ estimateTokens 9 :=
  ⟨C8_theorem.1 100, C8_theorem.2 7 9 (by decide)⟩

/-! ## Helper lemmas for the digests and the renderer -/

theorem pyCtxAux_length (lines : List String) :
    ∀ fuel j, (pyCtxAux lines j fuel).length ≤ fuel := by
  intro fuel
  induction fuel with
  | zero => intro j; simp [pyCtxAux]
  | succ n ih =>
    intro j
    simp only [pyCtxAux]
    cases h : lines.get? j with
    | none => simp
    | some l =>
      by_cases h1 : (pyStrip l).data.isEmpty
      · simp only [h1, if_true]
        exact (ih (j + 1)).trans (Nat.le_succ n)
      · by_cases h2 : isPyCommentCont (pyStrip l)
        · simp only [h1, h2, if_true, if_false, List.length_cons]
          exact Nat.succ_le_succ (ih (j + 1))
        · simp [h1, h2]

theorem pyCtxAux_dropLast (lines : List String) :
    ∀ fuel j x, x ∈ (pyCtxAux lines j fuel).dropLast → isPyCommentCont (pyStrip x) = true := by
  intro fuel
  induction fuel with
  | zero => intro j x hx; simp [pyCtxAux] at hx
  | succ n ih =>
    intro j x hx
    simp only [pyCtxAux] at hx
    cases h : lines.get? j with
    | none => rw [h] at hx; simp at hx
    | some l =>
      rw [h] at hx
      by_cases h1 : (pyStrip l).data.isEmpty
      · simp only [h1, if_true] at hx
        exact ih (j + 1) x hx
      · by_cases h2 : isPyCommentCont (pyStrip l)
        · simp [h1, h2] at hx
          cases hrec : pyCtxAux lines (j + 1) n with
          | nil => rw [hrec] at hx; simp at hx
          | cons a as =>
            rw [hrec, List.dropLast_cons₂] at hx
            rcases List.mem_cons.mp hx with rfl | hx'
            · exact h2
            · exact ih (j + 1) x (by rw [hrec]; exact hx')
        · simp [h1, h2] at hx

theorem joinLines_decomp (H : List String) (tagline mid last : String) (hH : H ≠ []) :
    joinLines (H ++ [tagline, mid, last]) =
      (joinLines H ++ "\n" ++ tagline ++ "\n") ++ mid ++ ("\n" ++ last) := by
  obtain ⟨a, rest, rfl⟩ := List.exists_cons_of_ne_nil hH
  simp only [joinLines, List.cons_append, List.foldl_append, List.foldl_cons, List.foldl_nil]
  simp [String.append_assoc]

/-! ## Claim C9 -/

/-- C9, counterexample.  A 21-line file whose every line is an import line,
in a language without a dedicated digest (the generic fallback of
`_compress_file_content`): the "compressed" digest is the content itself —
all 21 import lines are emitted verbatim (more than the claimed cap of 20)
and no remainder note of any kind is produced, so the cap/shape contract is
not language-independent. -/
theorem C9_counterexample :
    compressGenericFile c21 = c21 ∧
    (pySplit c21 ("\n")).countP (fun l => isPyImportLine l) = 21 ∧
    ¬ 21 ≤ 20 := by
  refine ⟨?_, ?_, ?_⟩ <;> decide

/-- C9, amended.  The 20/30/4/50 cap-and-shape contract is honoured by the
Python digest but is not language-independent.  For `_compress_python_file`:
the imports block is empty or consists of the header, the first (at most)
20 import lines and at most two further lines; with more than 20 imports the
counting remainder note is present, with at most 20 the block has no note;
with more than 30 scanned definitions the definition remainder note is
present; each definition's context is at most 4 lines, all but the last
being docstring/comment continuations.  For languages without a dedicated
digest, `_compress_file_content` falls back to plain head/tail truncation:
content of at most 100 lines is returned verbatim (no import or declaration
extraction, no note), and longer content yields exactly the first 50 lines,
an elision note, and the last 50 lines. -/
theorem C9_theorem (lines : List String) (i : ℕ) (content : String) :
    (∃ r, (pyImportsSection lines = [] ∨
        pyImportsSection lines =
          ("## Imports:") :: ((lines.filter isPyImportLine).take 20 ++ r)) ∧
      r.length ≤ 2) ∧
    (20 < (lines.filter isPyImportLine).length →
      pyMoreImportsNote ((lines.filter isPyImportLine).length - 20) ∈ pyImportsSection lines) ∧
    ((lines.filter isPyImportLine).length ≤ 20 →
      (pyImportsSection lines = [] ∨
        pyImportsSection lines =
          ("## Imports:") :: ((lines.filter isPyImportLine).take 20 ++ [("")]))) ∧
    (30 < (pyDefScan lines).length →
      pyMoreDefsNote ((pyDefScan lines).length - 30) ∈ pyDefsSection lines) ∧
    (pyCtx lines i).length ≤ 4 ∧
    (∀ x ∈ (pyCtx lines i).dropLast, isPyCommentCont (pyStrip x) = true) ∧
    ((pySplit content ("\n")).length ≤ 100 → compressGenericFile content = content) ∧
    (100 < (pySplit content ("\n")).length →
      ∃ note, compressGenericFile content =
        joinLines ((pySplit content ("\n")).take 50) ++ note ++
          joinLines ((pySplit content ("\n")).drop ((pySplit content ("\n")).length - 50))) := by
  refine ⟨?_, ?_, ?_, ?_, ?_, ?_, ?_, ?_⟩
  · by_cases hi : (lines.filter isPyImportLine).isEmpty
    · exact ⟨[], Or.inl (by simp [pyImportsSection, hi]), by simp⟩
    · refine ⟨(if 20 < (lines.filter isPyImportLine).length then
          [pyMoreImportsNote ((lines.filter isPyImportLine).length - 20)] else []) ++ [("")],
        Or.inr ?_, ?_⟩
      · simp [pyImportsSection, hi]
      · by_cases h20 : 20 < (lines.filter isPyImportLine).length <;> simp [h20]
  · intro h20
    have hi : (lines.filter isPyImportLine).isEmpty = false := by
      rcases h : lines.filter isPyImportLine with _ | ⟨a, as⟩
      · rw [h] at h20; simp at h20
      · simp
    simp [pyImportsSection, hi, h20]
  · intro h20
    by_cases hi : (lines.filter isPyImportLine).isEmpty
    · exact Or.inl (by simp [pyImportsSection, hi])
    · refine Or.inr ?_
      simp [pyImportsSection, hi, show ¬ 20 < (lines.filter isPyImportLine).length by omega]
  · intro h30
    have hi : (pyDefScan lines).isEmpty = false := by
      rcases h : pyDefScan lines with _ | ⟨a, as⟩
      · rw [h] at h30; simp at h30
      · simp
    simp [pyDefsSection, hi, h30]
  · exact pyCtxAux_length lines 4 (i + 1)
  · intro x hx
    exact pyCtxAux_dropLast lines 4 (i + 1) x hx
  · intro h
    simp [compressGenericFile, show ¬ 100 < (pySplit content ("\n")).length by omega]
  · intro h
    refine ⟨"\n\n... (truncated, showing first 50 of " ++
      toString (pySplit content ("\n")).length ++ " lines) ...\n\n", ?_⟩
    simp [compressGenericFile, h, String.append_assoc]

/-- C9, witness. -/
theorem C9_witness :
    pyMoreImportsNote (((List.replicate 21 ("import b")).filter isPyImportLine).length - 20) ∈
      pyImportsSection (List.replicate 21 ("import b")) ∧
    compressGenericFile ("a\nb") = ("a\nb") ∧
    (∀ x ∈ (pyCtx [("def f():"), ("    # c")] 0).dropLast, isPyCommentCont (pyStrip x) = true) :=
  ⟨(C9_theorem (List.replicate 21 ("import b")) 0 ("a\nb")).2.1 (by decide),
   (C9_theorem (List.replicate 21 ("import b")) 0 ("a\nb")).2.2.2.2.2.2.1 (by decide),
   (C9_theorem [("def f():"), ("    # c")] 0 ("a\nb")).2.2.2.2.2.1⟩

/-! ## Claim C10 -/

/-- C10, confirmed.  On the generate path a selected file is always rendered
in full: the rendered section is literally `pre ++ content ++ post` (with the
comment-stripping collaborator applied instead of the identity when
`includeComments` is false), and the rendering is identical for any two
configurations agreeing on `includeComments` — in particular for every value
of `compressLargeFiles` and `compressThresholdLines`, since
`_generate_file_content` never invokes the compressed-digest functions. -/
theorem C10_theorem (strip : String → String → String) (cfg cfg' : GenerationConfig)
    (f : FileInfo) (content : String) (r : Except String String)
    (hic : cfg.include_comments = cfg'.include_comments) :
    generateFileContent strip cfg f r = generateFileContent strip cfg' f r ∧
    ∃ pre post, generateFileContent strip cfg f (Except.ok content) =
      pre ++ (if cfg.include_comments then content else strip f.language content) ++ post := by
  constructor
  · simp [generateFileContent, hic]
  · simp only [generateFileContent]
    exact ⟨_, _, joinLines_decomp _ _ _ _ (by simp)⟩

/-- C10, witness. -/
theorem C10_witness :
    generateFileContent stripNoop cfgR1 fR (Except.ok ("x")) =
      generateFileContent stripNoop cfgR2 fR (Except.ok ("x")) ∧
    ∃ pre post, generateFileContent stripNoop cfgR1 fR (Except.ok ("x")) =
      pre ++ (if cfgR1.include_comments then ("x") else stripNoop fR.language ("x")) ++ post :=
  C10_theorem stripNoop cfgR1 cfgR2 fR ("x") (Except.ok ("x")) rfl

end CMforAI
